import Mathlib

/-!
Shallow embedding of the memory monitor (`src/memory_monitor.py`) and of the
chunked transfer helpers (`src/helpers/transfer.py`).

Memory quantities are megabyte values modelled as rationals: the source
computes them as floating point numbers, and only orderings and differences
of those values matter to the properties below.  The cosmetic
`round(x, ndigits)` post-processing applied by the source before storing or
printing a value is not modelled, since it has no bearing on any of the
questions at issue.  Byte counters in the transfer helpers are modelled as
natural numbers.
-/

namespace MemoryMonitor

/-- One memory sample, mirroring the dictionary built by
`MemoryMonitor.get_memory_info` (src/memory_monitor.py, lines 100-126).
`cgroup_mb` and `page_cache_mb` are `Option`s because the source inserts
those keys only when cgroup data is available. -/
structure MemInfo where
  rss_mb : ℚ
  vms_mb : ℚ
  system_total_mb : ℚ
  system_available_mb : ℚ
  system_percent : ℚ
  cgroup_mb : Option ℚ
  page_cache_mb : Option ℚ
deriving DecidableEq

/-- Model of `MemoryMonitor.get_memory_info`, as a function of the raw readings it
takes from `psutil` and from the cgroup files (`cgroup = none` models both
cgroup interfaces being absent).  When cgroup data is present the source sets
`result['page_cache_mb'] = round(cgroup_mb - rss_mb, 2)`; there is no
flooring of this difference in the source. -/
def get_memory_info (rss vms stot savail spct : ℚ) (cgroup : Option ℚ) : MemInfo :=
  { rss_mb := rss,
    vms_mb := vms,
    system_total_mb := stot,
    system_available_mb := savail,
    system_percent := spct,
    cgroup_mb := cgroup,
    page_cache_mb := cgroup.map (fun c => c - rss) }

/-- One history entry: the tuple `(timestamp, operation, rss, context)`
appended to `operation_history` by `log_memory_snapshot` (lines 170-175). -/
structure Snapshot where
  timestamp : String
  operation : String
  memory_mb : ℚ
  context : String
deriving DecidableEq

/-- The `maxlen` of the `collections.deque` created in `MemoryMonitor.__init__`
(line 17), also stored as `self.max_history` (line 18). -/
def max_history : ℕ := 20

/-- Appending to `self.operation_history`, a `deque(maxlen=20)`: when the
deque already holds `maxlen` items, appending discards the oldest item. -/
def historyAppend (h : List Snapshot) (x : Snapshot) : List Snapshot :=
  if h.length < max_history then h ++ [x] else h.drop 1 ++ [x]

/-- The mutable per-instance state of `MemoryMonitor`: the fields assigned in
`__init__` that the evaluation paths read or write. -/
structure MonitorState where
  last_memory_mb : ℚ
  memory_threshold_mb : ℚ
  spike_threshold_mb : ℚ
  operation_history : List Snapshot
deriving DecidableEq

/-- Model of `MemoryMonitor.__init__` (lines 9-18): `last_memory_mb = 0`,
`memory_threshold_mb = 400`, `spike_threshold_mb = 50`, empty history. -/
def init : MonitorState :=
  { last_memory_mb := 0,
    memory_threshold_mb := 400,
    spike_threshold_mb := 50,
    operation_history := [] }

/-- The `memory_to_check` value as computed in `_write_to_memory_log` (line 65):
`mem.get('cgroup_mb', mem['rss_mb'])`. -/
def memory_to_check_write_log (mem : MemInfo) : ℚ :=
  mem.cgroup_mb.getD mem.rss_mb

/-- The `memory_to_check` value as computed in `log_memory_snapshot` (line 197):
`mem.get('cgroup_mb', mem['rss_mb'])`. -/
def memory_to_check_snapshot (mem : MemInfo) : ℚ :=
  mem.cgroup_mb.getD mem.rss_mb

/-- The `memory_to_check` value as computed in `periodic_monitor` (line 413):
`mem.get('cgroup_mb', mem['rss_mb'])`. -/
def memory_to_check_periodic (mem : MemInfo) : ℚ :=
  mem.cgroup_mb.getD mem.rss_mb

/-- The literal `400` in `_write_to_memory_log` (line 66): an unforced write
is skipped whenever `memory_to_check < 400`. -/
def worth_recording_floor : ℚ := 400

/-- The literal `480` compared against in `log_memory_snapshot` (line 198)
and `_get_memory_status` (line 394): about 93 percent of the 512 MB plan. -/
def critical_threshold_mb : ℚ := 480

/-- The `>= 300` tier boundary of `_get_memory_status` (line 398),
"ELEVATED - Monitor Closely". -/
def elevated_floor : ℚ := 300

/-- The `>= 200` tier boundary of `_get_memory_status` (line 400),
"NORMAL - Healthy". -/
def normal_floor : ℚ := 200

/-- Gate of `_write_to_memory_log` (lines 60-67): the durable-log write is
attempted iff `force_write` is set or `memory_to_check >= 400`.  (An I/O
failure of the attempted write itself is caught and swallowed by the source
and is not modelled.) -/
def write_to_memory_log_attempts (force_write : Bool) (mem : MemInfo) : Bool :=
  force_write || ! decide (memory_to_check_write_log mem < worth_recording_floor)

/-- Which arm of the `if/elif/else` chain at lines 222-253 of
`log_memory_snapshot` runs: the spike warning, the high-usage warning, or the
informational log. -/
inductive Branch
  | spike
  | high
  | normal
deriving DecidableEq

/-- The observable classification outcome of one `log_memory_snapshot` call:
whether the independent critical block (lines 198-220) ran, and which arm of
the spike/high/normal chain (lines 222-253) ran. -/
structure EvalResult where
  criticalAlert : Bool
  branch : Branch
deriving DecidableEq

/-- The inputs of one `log_memory_snapshot(operation, context)` call: the
sample returned by `get_memory_info` plus the call arguments and the wall
clock reading used for the history entry. -/
structure SnapInput where
  mem : MemInfo
  operation : String
  context : String
  timestamp : String
deriving DecidableEq

/-- The tuple built at lines 170-175 of `log_memory_snapshot` and appended to
`operation_history`. -/
def toSnapshot (i : SnapInput) : Snapshot :=
  { timestamp := i.timestamp,
    operation := i.operation,
    memory_mb := i.mem.rss_mb,
    context := i.context }

/-- Model of `MemoryMonitor.log_memory_snapshot` (lines 164-262), restricted to its
state effects and classification outcome: append the history tuple (line
177), run the independent critical check `memory_to_check > 480` (line 198),
run the `if/elif/else` chain on `memory_increase = rss - last_memory_mb`
versus `spike_threshold_mb` and on `memory_to_check` versus
`memory_threshold_mb` (lines 222-253), and finally set
`last_memory_mb = rss` (line 261). -/
def log_memory_snapshot (st : MonitorState) (i : SnapInput) :
    MonitorState × EvalResult :=
  let history := historyAppend st.operation_history (toSnapshot i)
  let memory_to_check := memory_to_check_snapshot i.mem
  let memory_increase := i.mem.rss_mb - st.last_memory_mb
  let result : EvalResult :=
    { criticalAlert := decide (critical_threshold_mb < memory_to_check),
      branch :=
        if st.spike_threshold_mb < memory_increase then Branch.spike
        else if st.memory_threshold_mb < memory_to_check then Branch.high
        else Branch.normal }
  ({ st with
      operation_history := history,
      last_memory_mb := i.mem.rss_mb },
    result)

/-- The classification outcome as a function of nothing but the two derived
quantities `memory_to_check` and `memory_increase` together with the two
configured thresholds.  Written independently of `log_memory_snapshot` to
state that the latter's outcome is a pure function of these inputs. -/
def classify (spikeThr memThr memory_to_check memory_increase : ℚ) : EvalResult :=
  { criticalAlert := decide (critical_threshold_mb < memory_to_check),
    branch :=
      if spikeThr < memory_increase then Branch.spike
      else if memThr < memory_to_check then Branch.high
      else Branch.normal }

/-- Folding a sequence of `log_memory_snapshot` calls over the monitor
state (keeping only the state component). -/
def runSnapshots (st : MonitorState) (inputs : List SnapInput) : MonitorState :=
  inputs.foldl (fun s i => (log_memory_snapshot s i).1) st

/-- The garbage-collection trigger of `periodic_monitor` (line 414): forced
GC runs iff `memory_to_check > memory_threshold_mb`. -/
def periodic_gc_triggers (st : MonitorState) (mem : MemInfo) : Bool :=
  decide (st.memory_threshold_mb < memory_to_check_periodic mem)

end MemoryMonitor

namespace Transfer

/-- The 512 KiB chunk size used by both `CacheEvictingFile` (default argument,
line 15) and `download_media_streaming` (line 96). -/
def chunk_size : ℕ := 524288

/-- The state of one `CacheEvictingFile` (src/helpers/transfer.py, lines
10-72).  `last_evicted_offset` and `total_read` are the instance attributes
of the same names; `requested_upto` is bookkeeping for the proofs: the
highest byte offset covered by any `os.posix_fadvise(fd, offset, length,
POSIX_FADV_DONTNEED)` request issued so far (every call site passes
`offset = last_evicted_offset` and `length = total_read -
last_evicted_offset`, so each issued request covers exactly up to
`total_read`); `closed` records that `self.file.close()` has run. -/
structure FileState where
  last_evicted_offset : ℕ
  total_read : ℕ
  requested_upto : ℕ
  has_fadvise : Bool
  closed : Bool
deriving DecidableEq

/-- Model of `CacheEvictingFile.__init__` (lines 15-29): both counters start at 0;
`has_fadvise` records whether `os.posix_fadvise` exists on the platform. -/
def fileInit (hf : Bool) : FileState :=
  { last_evicted_offset := 0,
    total_read := 0,
    requested_upto := 0,
    has_fadvise := hf,
    closed := false }

/-- Model of `CacheEvictingFile.read` (lines 31-49), for one underlying read that
returned `n` bytes; `ok` tells whether the `posix_fadvise` call (if issued)
succeeded or raised `OSError` (in which case the source logs and keeps
`last_evicted_offset` unchanged).  When the returned data is empty or
`posix_fadvise` is unavailable the entire accounting block is skipped. -/
def read (s : FileState) (n : ℕ) (ok : Bool) : FileState :=
  if n ≠ 0 ∧ s.has_fadvise = true then
    let tr := s.total_read + n
    if chunk_size ≤ tr - s.last_evicted_offset then
      { s with
          total_read := tr,
          requested_upto := max s.requested_upto tr,
          last_evicted_offset := if ok then tr else s.last_evicted_offset }
    else { s with total_read := tr }
  else s

/-- Model of `CacheEvictingFile.close` (lines 57-65): issue a final eviction request
covering `[last_evicted_offset, total_read)` when `posix_fadvise` is
available and a tail remains unevicted (an `OSError` from this request is
swallowed, and either way the request was issued, so `requested_upto`
advances), then close the underlying file.  Python file close is idempotent
and the swallowed `OSError` is the only exception the eviction can raise, so
`close` is a total function of the state. -/
def close (s : FileState) : FileState :=
  if s.has_fadvise = true ∧ s.last_evicted_offset < s.total_read then
    { s with
        requested_upto := max s.requested_upto s.total_read,
        closed := true }
  else { s with closed := true }

/-- Folding a sequence of reads (byte count returned, eviction success flag)
over a fresh `CacheEvictingFile` opened on a platform with `posix_fadvise`. -/
def runReads (steps : List (ℕ × Bool)) : FileState :=
  steps.foldl (fun s p => read s p.1 p.2) (fileInit true)

/-- The loop body state of `download_media_streaming` (lines 95-137),
threaded through the `async for` loop: `downloaded_bytes` and
`last_evicted_offset` are the local variables of those names, and `calls`
collects, in order, the `bytes_done` values passed to `progress_callback`.
Each list element of the input is one produced chunk: its byte length and
the success flag of the `posix_fadvise` call (if one is issued for it).
`hf` is `has_fadvise`, `hcb` is whether a `progress_callback` was supplied,
`fs` is `file_size`.  Mirroring the source: after writing a chunk,
`downloaded_bytes += len(chunk)`; then eviction is attempted when
`downloaded_bytes - last_evicted_offset >= chunk_size`; then the callback is
invoked with `(downloaded_bytes, file_size)` iff a callback was supplied and
`file_size > 0`. -/
def download_loop (hf hcb : Bool) (fs : ℕ) (d la : ℕ) :
    List (ℕ × Bool) → ℕ × ℕ × List ℕ
  | [] => (d, la, [])
  | (c, ok) :: rest =>
    let d' := d + c
    let la' :=
      if hf = true ∧ chunk_size ≤ d' - la then (if ok then d' else la) else la
    let r := download_loop hf hcb fs d' la' rest
    (r.1, r.2.1, (if hcb = true ∧ 0 < fs then [d'] else []) ++ r.2.2)

/-- The sequence of `bytes_done` values passed to `progress_callback` during
`download_media_streaming` of the given chunk sequence. -/
def download_calls (hcb : Bool) (fs : ℕ) (chunks : List (ℕ × Bool)) : List ℕ :=
  (download_loop true hcb fs 0 0 chunks).2.2

end Transfer

open MemoryMonitor Transfer

/-- Claim C4 counterexample: a sample with container memory 10 MB and resident
memory 20 MB yields a page-cache estimate of `-10`, a negative value, so the
derived estimate is not floored at 0. -/
theorem c4_counterexample :
    (get_memory_info 20 0 0 0 0 (some 10)).page_cache_mb = some (-10) ∧
    ((-10 : ℚ) < 0) := by
  constructor
  · simp only [get_memory_info, Option.map_some']
    norm_num
  · norm_num

/-- Claim C4 (amended): whenever container (cgroup) memory is available, the
derived page-cache estimate equals `container_memory - resident_memory`
exactly, with no flooring at 0 (so it is negative whenever container memory
is below resident memory). -/
theorem c4_page_cache_difference (rss vms stot savail spct c : ℚ) :
    (get_memory_info rss vms stot savail spct (some c)).page_cache_mb
      = some (c - rss) := rfl

/-- Claim C6: whenever cgroup memory is unavailable, all three code paths
that compute `memory_to_check` (the durable-log gate in
`_write_to_memory_log`, the snapshot classification in
`log_memory_snapshot`, and the GC trigger in `periodic_monitor`) yield
exactly the process resident memory. -/
theorem c6_fallback_consistency (mem : MemInfo) (h : mem.cgroup_mb = none) :
    memory_to_check_write_log mem = mem.rss_mb ∧
    memory_to_check_snapshot mem = mem.rss_mb ∧
    memory_to_check_periodic mem = mem.rss_mb := by
  simp [memory_to_check_write_log, memory_to_check_snapshot,
    memory_to_check_periodic, h]

theorem c6_fallback_consistency_witness :
    memory_to_check_write_log (get_memory_info 123 0 0 0 0 none) = 123 ∧
    memory_to_check_snapshot (get_memory_info 123 0 0 0 0 none) = 123 ∧
    memory_to_check_periodic (get_memory_info 123 0 0 0 0 none) = 123 :=
  c6_fallback_consistency (get_memory_info 123 0 0 0 0 none) rfl

/-- Claim C3 counterexample: the "worth recording" floor of the durable log
(the literal 400 in `_write_to_memory_log`) equals the high watermark
`memory_threshold_mb = 400`; it does not lie strictly below it. -/
theorem c3_counterexample :
    worth_recording_floor = MemoryMonitor.init.memory_threshold_mb ∧
    ¬ worth_recording_floor < MemoryMonitor.init.memory_threshold_mb := by
  refine ⟨rfl, ?_⟩
  simp [worth_recording_floor, MemoryMonitor.init]

/-- Claim C3 (amended): a durable-log write is attempted exactly when it is
forced or `memory_to_check` is at least the "worth recording" floor of
400 MB; that floor equals the high watermark (400 MB), lies strictly below
the critical threshold (480 MB), and lies strictly above the normal and
elevated status baselines (200 MB and 300 MB). -/
theorem c3_write_gating (force_write : Bool) (mem : MemInfo) :
    (write_to_memory_log_attempts force_write mem = true ↔
      force_write = true ∨ worth_recording_floor ≤ memory_to_check_write_log mem) ∧
    worth_recording_floor = MemoryMonitor.init.memory_threshold_mb ∧
    worth_recording_floor < critical_threshold_mb ∧
    normal_floor < worth_recording_floor ∧
    elevated_floor < worth_recording_floor := by
  refine ⟨?_, rfl, ?_, ?_, ?_⟩
  · simp [write_to_memory_log_attempts, not_lt]
  · norm_num [worth_recording_floor, critical_threshold_mb]
  · norm_num [worth_recording_floor, normal_floor]
  · norm_num [worth_recording_floor, elevated_floor]

/-- Claim C1 counterexample: with container memory at 500 MB, resident memory
at 490 MB and previous resident at 400 MB, a single `log_memory_snapshot`
call runs both the critical block (`memory_to_check > 480`) and the spike
branch (`memory_increase > 50`): the critical check is an independent `if`,
not part of the spike/high/normal `if/elif/else` chain, so one call can take
two of the four classification branches. -/
theorem c1_counterexample :
    (log_memory_snapshot { MemoryMonitor.init with last_memory_mb := 400 }
        { mem := get_memory_info 490 0 0 0 0 (some 500),
          operation := "", context := "", timestamp := "" }).2.criticalAlert = true ∧
    (log_memory_snapshot { MemoryMonitor.init with last_memory_mb := 400 }
        { mem := get_memory_info 490 0 0 0 0 (some 500),
          operation := "", context := "", timestamp := "" }).2.branch = Branch.spike := by
  constructor
  · simp only [log_memory_snapshot, memory_to_check_snapshot, get_memory_info,
      critical_threshold_mb, Option.getD_some, decide_eq_true_eq]
    norm_num
  · simp only [log_memory_snapshot, memory_to_check_snapshot, get_memory_info,
      MemoryMonitor.init, Option.getD_some]
    norm_num

/-- Claim C1 (amended): one `log_memory_snapshot` call takes exactly one of
the three arms {spike, high, normal} of its `if/elif/else` chain, and the
critical alert is a separate, independently firing check; the whole outcome
is a pure function of `memory_to_check`, the spike delta
`memory_increase = rss - last_memory_mb` and the fixed thresholds, with no
other state affecting it; and, as long as the high watermark does not exceed
the critical threshold (400 <= 480 in the code), a call that fires the
critical alert never lands in the normal arm — but it can coincide with the
spike or high arm. -/
theorem c1_classification (st : MonitorState) (i : SnapInput)
    (hth : st.memory_threshold_mb ≤ critical_threshold_mb) :
    (log_memory_snapshot st i).2
      = classify st.spike_threshold_mb st.memory_threshold_mb
          (memory_to_check_snapshot i.mem) (i.mem.rss_mb - st.last_memory_mb) ∧
    ((log_memory_snapshot st i).2.branch = Branch.spike ∨
      (log_memory_snapshot st i).2.branch = Branch.high ∨
      (log_memory_snapshot st i).2.branch = Branch.normal) ∧
    ((log_memory_snapshot st i).2.criticalAlert = true →
      (log_memory_snapshot st i).2.branch ≠ Branch.normal) := by
  refine ⟨rfl, ?_, ?_⟩
  · simp only [log_memory_snapshot]
    split_ifs <;> simp
  · intro hc
    simp only [log_memory_snapshot, decide_eq_true_eq] at hc ⊢
    split_ifs with h1 h2
    · simp
    · simp
    · exfalso
      exact absurd hc (not_lt.mpr (le_trans (not_lt.mp h2) hth))

theorem c1_classification_witness :
    (log_memory_snapshot { MemoryMonitor.init with last_memory_mb := 300 }
        { mem := get_memory_info 390 0 0 0 0 (some 500),
          operation := "", context := "", timestamp := "" }).2
      = classify ({ MemoryMonitor.init with last_memory_mb := 300 } : MonitorState).spike_threshold_mb
          ({ MemoryMonitor.init with last_memory_mb := 300 } : MonitorState).memory_threshold_mb
          (memory_to_check_snapshot (get_memory_info 390 0 0 0 0 (some 500)))
          ((get_memory_info 390 0 0 0 0 (some 500)).rss_mb
            - ({ MemoryMonitor.init with last_memory_mb := 300 } : MonitorState).last_memory_mb) ∧
    ((log_memory_snapshot { MemoryMonitor.init with last_memory_mb := 300 }
        { mem := get_memory_info 390 0 0 0 0 (some 500),
          operation := "", context := "", timestamp := "" }).2.branch = Branch.spike ∨
      (log_memory_snapshot { MemoryMonitor.init with last_memory_mb := 300 }
        { mem := get_memory_info 390 0 0 0 0 (some 500),
          operation := "", context := "", timestamp := "" }).2.branch = Branch.high ∨
      (log_memory_snapshot { MemoryMonitor.init with last_memory_mb := 300 }
        { mem := get_memory_info 390 0 0 0 0 (some 500),
          operation := "", context := "", timestamp := "" }).2.branch = Branch.normal) ∧
    ((log_memory_snapshot { MemoryMonitor.init with last_memory_mb := 300 }
        { mem := get_memory_info 390 0 0 0 0 (some 500),
          operation := "", context := "", timestamp := "" }).2.criticalAlert = true →
      (log_memory_snapshot { MemoryMonitor.init with last_memory_mb := 300 }
        { mem := get_memory_info 390 0 0 0 0 (some 500),
          operation := "", context := "", timestamp := "" }).2.branch ≠ Branch.normal) :=
  c1_classification { MemoryMonitor.init with last_memory_mb := 300 }
    { mem := get_memory_info 390 0 0 0 0 (some 500),
      operation := "", context := "", timestamp := "" }
    (by decide)

/-- Claim C7: whenever the resident-memory increase between two consecutive
samples exceeds the spike threshold, `log_memory_snapshot` takes the spike
arm and not the high-watermark arm, regardless of what `memory_to_check` is
(in particular even when it is below the high watermark). -/
theorem c7_spike_overrides_high (st : MonitorState) (i : SnapInput)
    (h : st.spike_threshold_mb < i.mem.rss_mb - st.last_memory_mb) :
    (log_memory_snapshot st i).2.branch = Branch.spike ∧
    (log_memory_snapshot st i).2.branch ≠ Branch.high := by
  have hb : (log_memory_snapshot st i).2.branch = Branch.spike := by
    simp only [log_memory_snapshot, if_pos h]
  exact ⟨hb, by rw [hb]; simp⟩

/-- Helper arithmetic fact for `c7_spike_overrides_high_witness`: the spec
scenario of a jump from 100 MB to 160 MB against the 50 MB spike
threshold. -/
theorem spike_delta_100_160 :
    (({ MemoryMonitor.init with last_memory_mb := 100 } : MonitorState).spike_threshold_mb)
      < (get_memory_info 160 0 0 0 0 none).rss_mb
        - ({ MemoryMonitor.init with last_memory_mb := 100 } : MonitorState).last_memory_mb := by
  show (50 : ℚ) < 160 - 100
  norm_num

theorem c7_spike_overrides_high_witness :
    memory_to_check_snapshot (get_memory_info 160 0 0 0 0 none) = 160 ∧
    ((160 : ℚ) < MemoryMonitor.init.memory_threshold_mb) ∧
    ((log_memory_snapshot { MemoryMonitor.init with last_memory_mb := 100 }
        { mem := get_memory_info 160 0 0 0 0 none,
          operation := "", context := "", timestamp := "" }).2.branch = Branch.spike ∧
      (log_memory_snapshot { MemoryMonitor.init with last_memory_mb := 100 }
        { mem := get_memory_info 160 0 0 0 0 none,
          operation := "", context := "", timestamp := "" }).2.branch ≠ Branch.high) :=
  ⟨rfl, by decide,
    c7_spike_overrides_high { MemoryMonitor.init with last_memory_mb := 100 }
      { mem := get_memory_info 160 0 0 0 0 none,
        operation := "", context := "", timestamp := "" }
      spike_delta_100_160⟩

/-- Claim C10: right after construction `last_memory_mb = 0`, so the spike
delta of the very first `log_memory_snapshot` call equals the entire current
resident memory, and the first sample is classified as a spike whenever
resident memory exceeds the 50 MB spike threshold. -/
theorem c10_first_sample_spike (i : SnapInput)
    (h : MemoryMonitor.init.spike_threshold_mb < i.mem.rss_mb) :
    MemoryMonitor.init.last_memory_mb = 0 ∧
    i.mem.rss_mb - MemoryMonitor.init.last_memory_mb = i.mem.rss_mb ∧
    (log_memory_snapshot MemoryMonitor.init i).2.branch = Branch.spike := by
  refine ⟨rfl, ?_, ?_⟩
  · show i.mem.rss_mb - 0 = i.mem.rss_mb
    ring
  · have h' : MemoryMonitor.init.spike_threshold_mb
        < i.mem.rss_mb - MemoryMonitor.init.last_memory_mb := by
      show (50 : ℚ) < i.mem.rss_mb - 0
      simpa using h
    simp only [log_memory_snapshot, if_pos h']

theorem c10_first_sample_spike_witness :
    MemoryMonitor.init.last_memory_mb = 0 ∧
    (get_memory_info 100 0 0 0 0 none).rss_mb - MemoryMonitor.init.last_memory_mb
      = (get_memory_info 100 0 0 0 0 none).rss_mb ∧
    (log_memory_snapshot MemoryMonitor.init
        { mem := get_memory_info 100 0 0 0 0 none,
          operation := "", context := "", timestamp := "" }).2.branch = Branch.spike :=
  c10_first_sample_spike
    { mem := get_memory_info 100 0 0 0 0 none,
      operation := "", context := "", timestamp := "" }
    (by decide)

/-- Folding `historyAppend` from an empty history keeps exactly the most
recent `max_history` entries, in insertion order. -/
theorem foldl_historyAppend_eq (xs : List Snapshot) :
    xs.foldl historyAppend [] = xs.drop (xs.length - max_history) := by
  have hm : max_history = 20 := rfl
  induction xs using List.reverseRecOn with
  | nil => rfl
  | append_singleton ys y ih =>
    rw [List.foldl_append, List.foldl_cons, List.foldl_nil, ih]
    have hlen : (ys ++ [y]).length = ys.length + 1 := by simp
    rw [hlen]
    by_cases h : ys.length < max_history
    · have h1 : ys.length - max_history = 0 := by omega
      have h2 : ys.length + 1 - max_history = 0 := by omega
      rw [h1, h2, List.drop_zero, List.drop_zero]
      simp only [historyAppend, if_pos h]
    · have h3 : (ys.drop (ys.length - max_history)).length = max_history := by
        rw [List.length_drop]
        omega
      have h4 : ¬ (ys.drop (ys.length - max_history)).length < max_history := by
        omega
      simp only [historyAppend, if_neg h4]
      rw [List.drop_drop,
        List.drop_append_of_le_length (show ys.length + 1 - max_history ≤ ys.length by omega)]
      have h5 : ys.length - max_history + 1 = ys.length + 1 - max_history := by omega
      rw [h5]

/-- The history component of a sequence of `log_memory_snapshot` calls is the
fold of `historyAppend` over the corresponding history tuples. -/
theorem runSnapshots_history (st : MonitorState) (inputs : List SnapInput) :
    (runSnapshots st inputs).operation_history
      = (inputs.map toSnapshot).foldl historyAppend st.operation_history := by
  induction inputs generalizing st with
  | nil => rfl
  | cons i rest ih =>
    show (runSnapshots (log_memory_snapshot st i).1 rest).operation_history = _
    rw [List.map_cons, List.foldl_cons, ih]
    rfl

/-- Claim C5: after any sequence of `log_memory_snapshot` calls on a fresh
monitor, the history holds exactly the most recent `min N 20` entries,
oldest-first to newest-last — in particular exactly the most recent 20 when
N > 20 — and therefore never exceeds 20 entries at any point (the statement
quantifies over every call sequence, hence over every intermediate
point). -/
theorem c5_bounded_history (inputs : List SnapInput) :
    (runSnapshots MemoryMonitor.init inputs).operation_history
      = (inputs.map toSnapshot).drop (inputs.length - max_history) ∧
    (runSnapshots MemoryMonitor.init inputs).operation_history.length
      = min inputs.length max_history := by
  have h1 : (runSnapshots MemoryMonitor.init inputs).operation_history
      = (inputs.map toSnapshot).drop (inputs.length - max_history) := by
    rw [runSnapshots_history]
    show (inputs.map toSnapshot).foldl historyAppend [] = _
    rw [foldl_historyAppend_eq, List.length_map]
  refine ⟨h1, ?_⟩
  rw [h1, List.length_drop, List.length_map]
  omega

/-- One `CacheEvictingFile.read` step preserves the cursor invariant
`last_evicted_offset <= requested_upto <= total_read`. -/
theorem read_preserves_inv (s : FileState) (n : ℕ) (ok : Bool)
    (h1 : s.last_evicted_offset ≤ s.requested_upto)
    (h2 : s.requested_upto ≤ s.total_read) :
    (Transfer.read s n ok).last_evicted_offset ≤ (Transfer.read s n ok).requested_upto ∧
    (Transfer.read s n ok).requested_upto ≤ (Transfer.read s n ok).total_read := by
  simp only [Transfer.read]
  split_ifs <;> simp_all <;> omega

/-- Reading through `CacheEvictingFile.read` never changes `has_fadvise`. -/
theorem read_has_fadvise (s : FileState) (n : ℕ) (ok : Bool) :
    (Transfer.read s n ok).has_fadvise = s.has_fadvise := by
  simp only [Transfer.read]
  split_ifs <;> rfl

/-- Any sequence of reads from a fresh handle keeps the cursor invariant and
the capability flag. -/
theorem runReads_inv (steps : List (ℕ × Bool)) :
    (runReads steps).last_evicted_offset ≤ (runReads steps).requested_upto ∧
    (runReads steps).requested_upto ≤ (runReads steps).total_read ∧
    (runReads steps).has_fadvise = true := by
  induction steps using List.reverseRecOn with
  | nil => exact ⟨le_refl 0, le_refl 0, rfl⟩
  | append_singleton ys p ih =>
    have hstep : runReads (ys ++ [p]) = Transfer.read (runReads ys) p.1 p.2 := by
      simp [runReads, List.foldl_append]
    obtain ⟨ha, hb, hf⟩ := ih
    obtain ⟨ha', hb'⟩ := read_preserves_inv (runReads ys) p.1 p.2 ha hb
    rw [hstep]
    exact ⟨ha', hb', (read_has_fadvise _ _ _).trans hf⟩

/-- Claim C2: along every sequence of reads through a `CacheEvictingFile`
with `posix_fadvise` available, the eviction cursor (the byte offset up to
which eviction has been requested, together with the `last_evicted_offset`
attribute that only advances on successful hints) never exceeds the bytes
transferred, including across failed eviction hints, and after `close` the
eviction requests cover exactly the bytes transferred.  (On a platform
without `posix_fadvise` the source skips all accounting and the claim treats
eviction as always succeeding, so that case is trivial.)  The statement
quantifies over every read sequence, hence over every intermediate point of
a transfer. -/
theorem c2_eviction_cursor_invariant (steps : List (ℕ × Bool)) :
    (runReads steps).last_evicted_offset ≤ (runReads steps).total_read ∧
    (runReads steps).requested_upto ≤ (runReads steps).total_read ∧
    (Transfer.close (runReads steps)).last_evicted_offset
      ≤ (Transfer.close (runReads steps)).total_read ∧
    (Transfer.close (runReads steps)).requested_upto
      = (Transfer.close (runReads steps)).total_read := by
  obtain ⟨h1, h2, hf⟩ := runReads_inv steps
  refine ⟨le_trans h1 h2, h2, ?_, ?_⟩
  · unfold Transfer.close
    split_ifs <;> simpa using le_trans h1 h2
  · unfold Transfer.close
    split_ifs with hc
    · simp
      omega
    · rw [hf] at hc
      simp only [true_and] at hc
      simp
      omega

/-- Claim C9: a second `close` on a `CacheEvictingFile` leaves the state of
the handle — in particular the eviction totals `last_evicted_offset`,
`total_read` and the offset covered by issued eviction requests — exactly as
the first `close` left it.  (It also raises nothing: the source swallows the
`OSError` of the re-issued hint and Python file close is idempotent, which is
why `close` is a total function here.) -/
theorem c9_close_idempotent (s : FileState) :
    Transfer.close (Transfer.close s) = Transfer.close s := by
  unfold Transfer.close
  by_cases h : s.has_fadvise = true ∧ s.last_evicted_offset < s.total_read
  · rw [if_pos h, if_pos (by simpa using h)]
    simp [max_assoc]
  · rw [if_neg h, if_neg (by simpa using h)]

/-- Unfolding equation of `download_loop` for one chunk. -/
theorem download_loop_cons (hf hcb : Bool) (fs d la cl : ℕ) (ok : Bool)
    (rest : List (ℕ × Bool)) :
    (download_loop hf hcb fs d la ((cl, ok) :: rest)).2.2
      = (if hcb = true ∧ 0 < fs then [d + cl] else [])
        ++ (download_loop hf hcb fs (d + cl)
            (if hf = true ∧ chunk_size ≤ d + cl - la then (if ok then d + cl else la)
              else la) rest).2.2 := rfl

/-- When `file_size` is 0, `download_media_streaming` never invokes the
progress callback. -/
theorem download_loop_fs_zero (hf hcb : Bool) (d la : ℕ)
    (chunks : List (ℕ × Bool)) :
    (download_loop hf hcb 0 d la chunks).2.2 = [] := by
  induction chunks generalizing d la with
  | nil => rfl
  | cons c rest ih =>
    obtain ⟨cl, ok⟩ := c
    rw [download_loop_cons]
    simp [ih]

/-- When no progress callback is supplied, none is invoked. -/
theorem download_loop_no_callback (hf : Bool) (fs d la : ℕ)
    (chunks : List (ℕ × Bool)) :
    (download_loop hf false fs d la chunks).2.2 = [] := by
  induction chunks generalizing d la with
  | nil => rfl
  | cons c rest ih =>
    obtain ⟨cl, ok⟩ := c
    rw [download_loop_cons]
    simp [ih]

/-- When every chunk is nonempty, the `bytes_done` values handed to the
progress callback form a strictly increasing chain above the starting
counter. -/
theorem download_loop_chain (hf : Bool) (fs : ℕ) (hfs : 0 < fs)
    (chunks : List (ℕ × Bool)) (hpos : ∀ c ∈ chunks, 0 < c.1) (d la : ℕ) :
    List.Chain (· < ·) d (download_loop hf true fs d la chunks).2.2 := by
  induction chunks generalizing d la with
  | nil => exact List.Chain.nil
  | cons c rest ih =>
    obtain ⟨cl, ok⟩ := c
    have hc : 0 < cl := hpos (cl, ok) (List.mem_cons_self _ _)
    rw [download_loop_cons, if_pos ⟨rfl, hfs⟩]
    refine List.Chain.cons (by omega) ?_
    exact ih (fun x hx => hpos x (List.mem_cons_of_mem _ hx)) (d + cl) _

/-- With a nonempty chunk sequence, the last `bytes_done` value handed to the
progress callback is the starting counter plus the total number of bytes in
the chunks. -/
theorem download_loop_getLast (hf : Bool) (fs : ℕ) (hfs : 0 < fs)
    (chunks : List (ℕ × Bool)) (hne : chunks ≠ []) (d la : ℕ) :
    (download_loop hf true fs d la chunks).2.2.getLast?
      = some (d + (chunks.map Prod.fst).sum) := by
  induction chunks generalizing d la with
  | nil => exact absurd rfl hne
  | cons c rest ih =>
    obtain ⟨cl, ok⟩ := c
    rw [download_loop_cons, if_pos ⟨rfl, hfs⟩]
    by_cases hr : rest = []
    · subst hr
      simp [download_loop]
    · have hrest := ih hr (d + cl)
        (if hf = true ∧ chunk_size ≤ d + cl - la then (if ok then d + cl else la) else la)
      rw [List.getLast?_append, hrest]
      simp [add_assoc]

/-- Claim C8: for a download whose chunk source yields a nonempty sequence of
nonempty chunks and delivers exactly its advertised total size (a transfer
that completes successfully), the sequence of `bytes_done` values passed to
the progress callback is strictly increasing and ends at `total_bytes`;
moreover the callback is never invoked when `total_bytes` is 0 (unknown) or
when no callback was supplied. -/
theorem c8_progress_monotone (chunks : List (ℕ × Bool))
    (hpos : ∀ c ∈ chunks, 0 < c.1) (hne : chunks ≠ []) :
    List.Chain' (· < ·) (download_calls true ((chunks.map Prod.fst).sum) chunks) ∧
    (download_calls true ((chunks.map Prod.fst).sum) chunks).getLast?
      = some ((chunks.map Prod.fst).sum) ∧
    download_calls true 0 chunks = [] ∧
    download_calls false ((chunks.map Prod.fst).sum) chunks = [] := by
  have hfs : 0 < (chunks.map Prod.fst).sum := by
    cases chunks with
    | nil => exact absurd rfl hne
    | cons c rest =>
      have := hpos c (List.mem_cons_self _ _)
      simp only [List.map_cons, List.sum_cons]
      omega
  refine ⟨?_, ?_, ?_, ?_⟩
  · have h := download_loop_chain true _ hfs chunks hpos 0 0
    have h' : List.Chain' (· < ·) (0 :: download_calls true ((chunks.map Prod.fst).sum) chunks) := h
    exact h'.tail
  · have h := download_loop_getLast true _ hfs chunks hne 0 0
    simpa using h
  · exact download_loop_fs_zero true true 0 0 chunks
  · exact download_loop_no_callback true _ 0 0 chunks

theorem c8_progress_monotone_witness :
    List.Chain' (· < ·)
      (download_calls true
        (([(524288, true), (524288, true), (524288, true), (524288, true)].map Prod.fst).sum)
        [(524288, true), (524288, true), (524288, true), (524288, true)]) ∧
    (download_calls true
        (([(524288, true), (524288, true), (524288, true), (524288, true)].map Prod.fst).sum)
        [(524288, true), (524288, true), (524288, true), (524288, true)]).getLast?
      = some (([(524288, true), (524288, true), (524288, true), (524288, true)].map Prod.fst).sum) ∧
    download_calls true 0 [(524288, true), (524288, true), (524288, true), (524288, true)] = [] ∧
    download_calls false
      (([(524288, true), (524288, true), (524288, true), (524288, true)].map Prod.fst).sum)
      [(524288, true), (524288, true), (524288, true), (524288, true)] = [] :=
  c8_progress_monotone [(524288, true), (524288, true), (524288, true), (524288, true)]
    (by decide) (by decide)
